import Mathlib

/-!
Shallow embedding of the job-search pipeline implemented in
src/backend/job_search_core.py.

Conventions of the embedding:
* Python floats are modelled as rationals; the numeric strings parsed by the
  scorer are plain decimals, which rationals represent exactly.
* Python exceptions are modelled with Except; a function that catches an
  exception and returns a value is total, a function that lets an exception
  propagate returns Except.error.
* External effects (HTTP transport, the language-model calls) are passed in
  as explicit parameters: a transport result is an Except value holding the
  parsed results list of the provider response, and the QA chain or the
  letter chain is a function from the rendered prompt to an Except answer.
* The SQLite jobs table is modelled as a list of postings kept in insertion
  order.  Every INSERT OR REPLACE deletes the conflicting row and appends a
  fresh row whose created_at default is the current time, so list position
  is exactly created_at order and ORDER BY created_at DESC is list reversal.
-/

/-- A Python exception raised during response mapping: a KeyError carrying
the missing dictionary key. -/
inductive PyError where
  | keyError (key : String)
  deriving DecidableEq, Repr

/-- A transport-level HTTP failure: a non-2xx status surfaced by
raise_for_status, or a network error raised by the session. Both are
requests.RequestException subclasses, hence caught by the clients. -/
inductive TransportError where
  | httpStatus (code : Nat)
  | networkError
  deriving DecidableEq, Repr

/-- The JobPosting dataclass of job_search_core.py. The match_score field
defaults to None at construction; the clients never pass it. -/
structure JobPosting where
  id : String
  title : String
  company : String
  location : String
  description : String
  requirements : String
  salary : Option String
  url : String
  date_posted : String
  source : String
  match_score : Option ℚ
  deriving DecidableEq, Repr

/-- The jobs table of JobSearchDatabase: rows in insertion order (list
position is created_at order, see the file comment). -/
structure JobSearchDatabase where
  rows : List JobPosting
  deriving DecidableEq, Repr

/-- JobSearchDatabase.save_job: INSERT OR REPLACE by primary key id.
SQLite REPLACE deletes any row with the same id and inserts the new row,
which therefore becomes the most recently created row. -/
def save_job (db : JobSearchDatabase) (job : JobPosting) : JobSearchDatabase :=
  ⟨(db.rows.filter (fun r => r.id ≠ job.id)) ++ [job]⟩

/-- JobSearchDatabase.get_jobs: SELECT the posting columns ORDER BY
created_at DESC LIMIT limit. With rows kept in created_at order this is
reverse-then-take. The Python default for limit is 50; callers that rely
on the default pass 50 explicitly here. -/
def get_jobs (db : JobSearchDatabase) (limit : Nat) : List JobPosting :=
  db.rows.reverse.take limit

/-- A raw Reed response item: the job_data dictionary, each key optionally
present. Values are modelled as strings. -/
structure ReedItem where
  jobId : Option String
  jobTitle : Option String
  employerName : Option String
  locationName : Option String
  jobDescription : Option String
  minimumSalary : Option String
  jobUrl : Option String
  date : Option String
  deriving DecidableEq, Repr

/-- A raw Adzuna response item. The nested company and location
dictionaries are flattened: company_display_name is None when either the
company key or its display_name key is missing (either lookup raises). -/
structure AdzunaItem where
  id : Option String
  title : Option String
  company_display_name : Option String
  location_display_name : Option String
  description : Option String
  salary_min : Option String
  redirect_url : Option String
  created : Option String
  deriving DecidableEq, Repr

/-- A mandatory dictionary lookup job_data[key]: raises KeyError when the
key is absent. -/
def pyGet (key : String) : Option String → Except PyError String
  | some v => Except.ok v
  | none => Except.error (PyError.keyError key)

/-- Python truthiness test for a credential read from the environment:
os.getenv yields None when unset, and the clients test it with "if not",
which is also true for an empty string. -/
def credFalsy : Option String → Bool
  | none => true
  | some s => s.isEmpty

/-- Construction of one JobPosting from a Reed item, in the evaluation
order of the keyword arguments in search_reed_jobs. The mandatory lookups
(jobId, jobTitle, employerName, locationName, jobDescription, jobUrl,
date) are unguarded; requirements and salary use a defaulted .get. -/
def mapReedItem (it : ReedItem) : Except PyError JobPosting := do
  let jid ← pyGet "jobId" it.jobId
  let jtitle ← pyGet "jobTitle" it.jobTitle
  let jcompany ← pyGet "employerName" it.employerName
  let jlocation ← pyGet "locationName" it.locationName
  let jdescription ← pyGet "jobDescription" it.jobDescription
  let jurl ← pyGet "jobUrl" it.jobUrl
  let jdate ← pyGet "date" it.date
  pure
    { id := "reed_" ++ jid
      title := jtitle
      company := jcompany
      location := jlocation
      description := jdescription
      requirements := it.jobDescription.getD ""
      salary := some (it.minimumSalary.getD "")
      url := jurl
      date_posted := jdate
      source := "Reed"
      match_score := none }

/-- The accumulation loop of search_reed_jobs over data.get results: the
first raising item aborts the whole batch and discards the accumulator. -/
def mapReedItems : List ReedItem → Except PyError (List JobPosting)
  | [] => Except.ok []
  | it :: its => do
      let j ← mapReedItem it
      let js ← mapReedItems its
      pure (j :: js)

/-- JobAPIClient.search_reed_jobs. A falsy API key short-circuits to an
empty list; a transport failure is caught by the except clause and yields
an empty list; otherwise every response item is mapped, and a KeyError
from a mandatory field propagates. -/
def search_reed_jobs (apiKey : Option String)
    (resp : Except TransportError (List ReedItem)) :
    Except PyError (List JobPosting) :=
  if credFalsy apiKey then Except.ok []
  else
    match resp with
    | Except.error _ => Except.ok []
    | Except.ok items => mapReedItems items

/-- Construction of one JobPosting from an Adzuna item, in keyword
evaluation order. Mandatory unguarded lookups: id, title,
company display_name, location display_name, description, redirect_url,
created. -/
def mapAdzunaItem (it : AdzunaItem) : Except PyError JobPosting := do
  let aid ← pyGet "id" it.id
  let atitle ← pyGet "title" it.title
  let acompany ← pyGet "company.display_name" it.company_display_name
  let alocation ← pyGet "location.display_name" it.location_display_name
  let adescription ← pyGet "description" it.description
  let aurl ← pyGet "redirect_url" it.redirect_url
  let acreated ← pyGet "created" it.created
  pure
    { id := "adzuna_" ++ aid
      title := atitle
      company := acompany
      location := alocation
      description := adescription
      requirements := it.description.getD ""
      salary := some (it.salary_min.getD "")
      url := aurl
      date_posted := acreated
      source := "Adzuna"
      match_score := none }

/-- The accumulation loop of search_adzuna_jobs: first raising item aborts
the batch. -/
def mapAdzunaItems : List AdzunaItem → Except PyError (List JobPosting)
  | [] => Except.ok []
  | it :: its => do
      let j ← mapAdzunaItem it
      let js ← mapAdzunaItems its
      pure (j :: js)

/-- JobAPIClient.search_adzuna_jobs. Either credential being falsy
short-circuits to an empty list; transport failures are caught. -/
def search_adzuna_jobs (appId appKey : Option String)
    (resp : Except TransportError (List AdzunaItem)) :
    Except PyError (List JobPosting) :=
  if credFalsy appId || credFalsy appKey then Except.ok []
  else
    match resp with
    | Except.error _ => Except.ok []
    | Except.ok items => mapAdzunaItems items

/-- The query f-string rendered by CVAnalyzer.analyze_job_match, with the
three posting fields interpolated. -/
def buildQuery (job : JobPosting) : String :=
  "\n        Based on my CV, how well do I match this job posting?\n\n        Job Title: "
    ++ job.title
    ++ "\n        Company: " ++ job.company
    ++ "\n        Requirements: " ++ job.requirements
    ++ "\n\n        Please provide a match score from 0-100 and explain the reasoning.\n        "

/-- Value of a digit string, as computed by Python int parsing of the
digit run (character code minus the code of the zero digit). -/
def digitsVal (l : List Char) : Nat :=
  l.foldl (fun a c => a * 10 + (c.toNat - 48)) 0

/-- The greedy match of the numeric regex pattern at the head of l, which
is known to start with a digit: the maximal digit run, then optionally a
dot followed by a nonempty maximal digit run. This is the text captured
by the regex digits-then-optional-dot-digits group anchored here. -/
def takeNum (l : List Char) : List Char :=
  let d := l.takeWhile Char.isDigit
  match l.dropWhile Char.isDigit with
  | '.' :: rest =>
      let e := rest.takeWhile Char.isDigit
      if e.isEmpty then d else d ++ '.' :: e
  | _ => d

/-- The re.search of the numeric pattern over the answer text: scan left
to right for the first position where the pattern can match, which is the
first digit, and take the greedy match there. -/
def findNum : List Char → Option (List Char)
  | [] => none
  | c :: cs => if c.isDigit then some (takeNum (c :: cs)) else findNum cs

/-- Python float() on a matched numeric token (digits with an optional
fractional part), valued exactly as a rational. -/
def parseNum (t : List Char) : ℚ :=
  let ip := t.takeWhile (fun c => c ≠ '.')
  match t.dropWhile (fun c => c ≠ '.') with
  | _ :: frac => (digitsVal ip : ℚ) + (digitsVal frac : ℚ) / (10 : ℚ) ^ frac.length
  | [] => (digitsVal ip : ℚ)

/-- CVAnalyzer._extract_score: float of the first regex match in the
answer text, or 0.0 when there is none. -/
def extract_score (result : String) : ℚ :=
  match findNum result.data with
  | some t => parseNum t
  | none => 0

/-- CVAnalyzer.analyze_job_match. The qa_chain is None until load_cv has
run; otherwise it is the bound RetrievalQA invoke, modelled as a function
from the rendered query to an Except answer text. A missing chain yields
0.0 immediately; any exception from invoke is caught and yields 0.0. -/
def analyze_job_match (qa_chain : Option (String → Except PyError String))
    (job : JobPosting) : ℚ :=
  match qa_chain with
  | none => 0
  | some invoke =>
      match invoke (buildQuery job) with
      | Except.ok result => extract_score result
      | Except.error _ => 0

/-- The cover-letter prompt template of CoverLetterGenerator with its four
substitution points rendered. -/
def buildLetterPrompt (job : JobPosting) (cv_summary : String) : String :=
  "\n        You are a professional cover letter writer. Create a compelling cover letter based on:\n\n        Job Details:\n        - Position: "
    ++ job.title
    ++ "\n        - Company: " ++ job.company
    ++ "\n        - Requirements: " ++ job.requirements
    ++ "\n\n        Candidate Background:\n        " ++ cv_summary
    ++ "\n\n        Key Instructions: specific to role and company, relevant experience, enthusiasm, professional, maximum 300 words.\n\n        Cover Letter:\n        "

/-- CoverLetterGenerator.generate_cover_letter: run the LLM chain on the
rendered prompt; any exception is caught and yields the empty string. -/
def generate_cover_letter (chainRun : String → Except PyError String)
    (job : JobPosting) (cv_summary : String) : String :=
  match chainRun (buildLetterPrompt job cv_summary) with
  | Except.ok letter => letter
  | Except.error _ => ""

/-- The sort key j.match_score or 0 of search_and_analyze_jobs: None is
replaced by 0, and a stored 0.0 is also falsy in Python but the
replacement 0 is the same value, so this is exactly getD 0. -/
def effScore (j : JobPosting) : ℚ :=
  j.match_score.getD 0

/-- Stable descending insertion for the sort key effScore: x is placed
before the first element whose key is less than or equal to its own, so
an element inserted from further left in the original list stays before
every element of equal key. -/
def insertDesc (x : JobPosting) : List JobPosting → List JobPosting
  | [] => [x]
  | y :: ys => if effScore y ≤ effScore x then x :: y :: ys else y :: insertDesc x ys

/-- The list.sort call with key match_score-or-0 and reverse=True: Python
timsort is stable, so it is extensionally this stable descending
insertion sort. -/
def sortJobsDesc : List JobPosting → List JobPosting
  | [] => []
  | x :: xs => insertDesc x (sortJobsDesc xs)

/-- The per-job body of the loop in search_and_analyze_jobs: when a
qa_chain is bound the match_score attribute is assigned the analyzer
result, otherwise the posting is left as constructed. -/
def processJob (qa_chain : Option (String → Except PyError String))
    (job : JobPosting) : JobPosting :=
  match qa_chain with
  | none => job
  | some _ => { job with match_score := some (analyze_job_match qa_chain job) }

/-- Tail of search_and_analyze_jobs after both fetches: score each posting
in place, save every (possibly scored) posting, then stable-sort the list
by match score descending. Scoring a posting does not read the database,
so the interleaved per-job save loop equals this fold over the scored
list. -/
def rankAndPersist (qa_chain : Option (String → Except PyError String))
    (db : JobSearchDatabase) (jobs : List JobPosting) :
    List JobPosting × JobSearchDatabase :=
  let scored := jobs.map (processJob qa_chain)
  (sortJobsDesc scored, scored.foldl save_job db)

/-- JobSearchAgent.search_and_analyze_jobs: fetch from Reed then Adzuna,
concatenate Reed first, score and persist each posting, and return the
stable-sorted list. A KeyError escaping a client propagates. -/
def search_and_analyze_jobs (reedKey adzunaId adzunaKey : Option String)
    (reedResp : Except TransportError (List ReedItem))
    (adzunaResp : Except TransportError (List AdzunaItem))
    (qa_chain : Option (String → Except PyError String))
    (db : JobSearchDatabase) :
    Except PyError (List JobPosting × JobSearchDatabase) := do
  let reed_jobs ← search_reed_jobs reedKey reedResp
  let adzuna_jobs ← search_adzuna_jobs adzunaId adzunaKey adzunaResp
  pure (rankAndPersist qa_chain db (reed_jobs ++ adzuna_jobs))

/-- JobSearchAgent.generate_application_materials: re-read the store with
the default limit of 50, take the first posting whose id matches, return
the error dictionary when none does, otherwise the structured dictionary
with the generated letter. The result is an association list modelling
the returned Python dict. -/
def generate_application_materials (chainRun : String → Except PyError String)
    (db : JobSearchDatabase) (job_id : String) (cv_summary : String) :
    List (String × String) :=
  let jobs := get_jobs db 50
  match jobs.find? (fun j => j.id == job_id) with
  | none => [("error", "Job not found")]
  | some job =>
      [("job_title", job.title),
       ("company", job.company),
       ("cover_letter", generate_cover_letter chainRun job cv_summary),
       ("job_url", job.url)]

/-- Specification-side predicate: t is a full match of the
integer-or-decimal numeric pattern, digits then optionally a dot and at
least one digit. -/
def numToken (t : List Char) : Bool :=
  let d := t.takeWhile Char.isDigit
  match t.dropWhile Char.isDigit with
  | [] => !d.isEmpty
  | '.' :: e => !d.isEmpty && !e.isEmpty && e.all Char.isDigit
  | _ => false

/-- Specification-side predicate: t is the first substring of s matching
the numeric pattern under leftmost-greedy regex search semantics: it
starts at the earliest position where any match starts (every earlier
character is a non-digit) and it is the longest match at that position. -/
def FirstNumericMatch (s t : List Char) : Prop :=
  ∃ pre rest, s = pre ++ rest ∧ (∀ c ∈ pre, c.isDigit = false) ∧
    (∃ u, rest = t ++ u) ∧ numToken t = true ∧
    (∀ t2 u2, rest = t2 ++ u2 → numToken t2 = true → t2.length ≤ t.length)

/-! Witness fixtures: concrete postings, items and oracles used by the
closed instantiations of the theorems below. -/

/-- A concrete posting with a numbered id, used to populate stores. -/
def mkJob (n : Nat) : JobPosting :=
  { id := "job_" ++ toString n
    title := "Engineer " ++ toString n
    company := "Acme"
    location := "London"
    description := "desc"
    requirements := "desc"
    salary := some ""
    url := "https://example.org/j"
    date_posted := "2024-01-01"
    source := "Reed"
    match_score := none }

/-- Some Reed key whose lookup in search_reed_jobs is unguarded is absent
from the item. -/
def reedMandatoryMissing (it : ReedItem) : Prop :=
  it.jobId = none ∨ it.jobTitle = none ∨ it.employerName = none ∨
  it.locationName = none ∨ it.jobDescription = none ∨ it.jobUrl = none ∨
  it.date = none

/-- Some Adzuna key whose lookup in search_adzuna_jobs is unguarded is
absent from the item. -/
def adzunaMandatoryMissing (it : AdzunaItem) : Prop :=
  it.id = none ∨ it.title = none ∨ it.company_display_name = none ∨
  it.location_display_name = none ∨ it.description = none ∨
  it.redirect_url = none ∨ it.created = none

/-- A complete Reed response item with every key present. -/
def wReedItem : ReedItem :=
  { jobId := some "101"
    jobTitle := some "Dev"
    employerName := some "Acme"
    locationName := some "London"
    jobDescription := some "build things"
    minimumSalary := some "50000"
    jobUrl := some "https://reed.example/101"
    date := some "2024-05-01" }

/-- A complete Adzuna response item with every key present. -/
def wAdzunaItem : AdzunaItem :=
  { id := some "7"
    title := some "Data"
    company_display_name := some "Beta"
    location_display_name := some "Leeds"
    description := some "crunch data"
    salary_min := some "40000"
    redirect_url := some "https://adzuna.example/7"
    created := some "2024-05-02" }

/-- A second complete Adzuna response item. -/
def wAdzunaItem2 : AdzunaItem :=
  { id := some "8"
    title := some "Ops"
    company_display_name := some "Gamma"
    location_display_name := some "York"
    description := some "keep lights on"
    salary_min := some "45000"
    redirect_url := some "https://adzuna.example/8"
    created := some "2024-05-03" }

/-- A Reed item whose mandatory jobTitle key is absent. -/
def wBadReedItem : ReedItem :=
  { wReedItem with jobTitle := none }

/-- An Adzuna item whose mandatory id key is absent. -/
def wBadAdzunaItem : AdzunaItem :=
  { wAdzunaItem with id := none }

/-- A Reed item whose jobDescription key, the key read for the
requirements field, is absent while every other key is present. -/
def reqMissReedItem : ReedItem :=
  { wReedItem with jobDescription := none }

/-- An Adzuna item whose description key, the key read for the
requirements field, is absent while every other key is present. -/
def reqMissAdzunaItem : AdzunaItem :=
  { wAdzunaItem with description := none }

/-- The posting successfully constructed from the complete Reed witness
item. -/
def wReedPosting : JobPosting :=
  match mapReedItem wReedItem with
  | Except.ok j => j
  | Except.error _ => mkJob 0

/-- The posting list of a successful Reed search over the single complete
witness item. -/
def wReedJobs : List JobPosting :=
  match mapReedItems [wReedItem] with
  | Except.ok l => l
  | Except.error _ => []

/-- The posting list of a successful Adzuna search over the two complete
witness items. -/
def wAdzunaJobs : List JobPosting :=
  match mapAdzunaItems [wAdzunaItem, wAdzunaItem2] with
  | Except.ok l => l
  | Except.error _ => []

/-- The QA oracle used by the sort witness: every query is answered with
the same text, so both Adzuna postings get equal scores and exercise the
tie-stability clause. -/
def wQA : Option (String → Except PyError String) :=
  some (fun _ => Except.ok "85")

/-- Output pair of the aggregate call used by the sort witness. -/
def wRanked : List JobPosting × JobSearchDatabase :=
  rankAndPersist wQA ⟨[]⟩ ([] ++ wAdzunaJobs)

/-! Theorems. -/

/-- Helper: a filter by one id of a list that was filtered to exclude the
same id is empty. -/
theorem filter_id_of_filter_ne (l : List JobPosting) (i : String) :
    (l.filter (fun r => r.id ≠ i)).filter (fun r => r.id = i) = [] := by
  rw [List.filter_eq_nil_iff]
  intro a ha
  have := List.of_mem_filter ha
  simp at this ⊢
  exact this

/-- C2: saving p1 and then p2 with the same id leaves the store with
exactly one row for that id, that row holds the field values of p2, and
the resulting store equals the store obtained by saving p2 alone. -/
theorem save_job_last_write_wins (db : JobSearchDatabase) (p1 p2 : JobPosting)
    (h : p1.id = p2.id) :
    (save_job (save_job db p1) p2).rows.filter (fun r => r.id = p2.id) = [p2] ∧
    ((save_job (save_job db p1) p2).rows.filter (fun r => r.id = p2.id)).length = 1 ∧
    save_job (save_job db p1) p2 = save_job db p2 := by
  have heq : save_job (save_job db p1) p2 = save_job db p2 := by
    simp only [save_job, JobSearchDatabase.mk.injEq]
    rw [List.filter_append, List.filter_filter]
    simp [h]
  refine ⟨?_, ?_, heq⟩
  · rw [heq]
    simp only [save_job, List.filter_append]
    rw [filter_id_of_filter_ne]
    simp
  · rw [heq]
    simp only [save_job, List.filter_append]
    rw [filter_id_of_filter_ne]
    simp

/-- C2 witness: the upsert property at a concrete store and two concrete
postings sharing an id. -/
theorem save_job_last_write_wins_witness :
    (save_job (save_job ⟨[mkJob 7]⟩ (mkJob 0)) { mkJob 0 with title := "B" }).rows.filter
      (fun r => r.id = ({ mkJob 0 with title := "B" } : JobPosting).id) =
      [{ mkJob 0 with title := "B" }] ∧
    ((save_job (save_job ⟨[mkJob 7]⟩ (mkJob 0)) { mkJob 0 with title := "B" }).rows.filter
      (fun r => r.id = ({ mkJob 0 with title := "B" } : JobPosting).id)).length = 1 ∧
    save_job (save_job ⟨[mkJob 7]⟩ (mkJob 0)) { mkJob 0 with title := "B" } =
      save_job ⟨[mkJob 7]⟩ { mkJob 0 with title := "B" } :=
  save_job_last_write_wins ⟨[mkJob 7]⟩ (mkJob 0) { mkJob 0 with title := "B" } rfl

/-- C6: when no posting read back from the store carries the requested id
the call returns the error dictionary, and when the id is found the call
returns the structured dictionary with the title, company, generated
letter and url of the first matching posting. -/
theorem generate_materials_found_shape (chainRun : String → Except PyError String)
    (db : JobSearchDatabase) (job_id cv_summary : String) (job : JobPosting) :
    ((∀ j ∈ get_jobs db 50, j.id ≠ job_id) →
      generate_application_materials chainRun db job_id cv_summary =
        [("error", "Job not found")]) ∧
    ((get_jobs db 50).find? (fun j => j.id == job_id) = some job →
      generate_application_materials chainRun db job_id cv_summary =
        [("job_title", job.title),
         ("company", job.company),
         ("cover_letter", generate_cover_letter chainRun job cv_summary),
         ("job_url", job.url)]) := by
  constructor
  · intro hnone
    have hfind : (get_jobs db 50).find? (fun j => j.id == job_id) = none := by
      rw [List.find?_eq_none]
      intro j hj
      simpa using hnone j hj
    simp [generate_application_materials, hfind]
  · intro hfound
    simp [generate_application_materials, hfound]

/-- C6 witness: the not-found branch at an empty store and the found
branch at a one-posting store, at concrete inputs. -/
theorem generate_materials_found_shape_witness :
    generate_application_materials (fun _ => Except.ok "letter") ⟨[]⟩ "job_0" "cv" =
      [("error", "Job not found")] ∧
    generate_application_materials (fun _ => Except.ok "letter") ⟨[mkJob 0]⟩ "job_0" "cv" =
      [("job_title", (mkJob 0).title),
       ("company", (mkJob 0).company),
       ("cover_letter", generate_cover_letter (fun _ => Except.ok "letter") (mkJob 0) "cv"),
       ("job_url", (mkJob 0).url)] :=
  ⟨(generate_materials_found_shape (fun _ => Except.ok "letter") ⟨[]⟩ "job_0" "cv" (mkJob 0)).1
      (by intro j hj; simp [get_jobs] at hj),
   (generate_materials_found_shape (fun _ => Except.ok "letter") ⟨[mkJob 0]⟩ "job_0" "cv"
      (mkJob 0)).2 (by decide)⟩

/-- C10: the store read in generate_application_materials uses the
default limit of 50, so a posting present in the store but not among the
50 most recently created rows is reported as not found. -/
theorem generate_materials_misses_old_rows (chainRun : String → Except PyError String)
    (db : JobSearchDatabase) (job_id cv_summary : String) (job : JobPosting)
    (_hmem : job ∈ db.rows) (_hid : job.id = job_id)
    (hnot : ∀ j ∈ get_jobs db 50, j.id ≠ job_id) :
    generate_application_materials chainRun db job_id cv_summary =
      [("error", "Job not found")] := by
  have hfind : (get_jobs db 50).find? (fun j => j.id == job_id) = none := by
    rw [List.find?_eq_none]
    intro j hj
    simpa using hnot j hj
  simp [generate_application_materials, hfind]

/-- C10 witness: a store holding 51 postings; the oldest posting is in
the store but generate_application_materials reports it not found. -/
theorem generate_materials_misses_old_rows_witness :
    generate_application_materials (fun _ => Except.ok "letter")
      ⟨(List.range 51).map mkJob⟩ "job_0" "cv" = [("error", "Job not found")] :=
  generate_materials_misses_old_rows (fun _ => Except.ok "letter")
    ⟨(List.range 51).map mkJob⟩ "job_0" "cv" (mkJob 0)
    (List.mem_map.mpr ⟨0, by simp, rfl⟩) rfl (by decide)

/-- Helper: a successfully mapped Reed item has every mandatory key
present, and the resulting posting copies the description into the
requirements field and carries no match score. -/
theorem mapReedItem_ok_inv (it : ReedItem) (j : JobPosting)
    (hok : mapReedItem it = Except.ok j) :
    it.jobId.isSome ∧ it.jobTitle.isSome ∧ it.employerName.isSome ∧
    it.locationName.isSome ∧ it.jobDescription.isSome ∧ it.jobUrl.isSome ∧
    it.date.isSome ∧ j.requirements = j.description ∧ j.match_score = none := by
  rcases it with ⟨jid, jtitle, jcomp, jloc, jdesc, jsal, jurl, jdate⟩
  cases jid <;> cases jtitle <;> cases jcomp <;> cases jloc <;> cases jdesc <;>
    cases jurl <;> cases jdate <;>
    simp [mapReedItem, pyGet, Bind.bind, Except.bind, Pure.pure, Except.pure] at hok <;>
    (subst hok; simp)

/-- Helper: a successfully mapped Adzuna item has every mandatory key
present, and the resulting posting copies the description into the
requirements field and carries no match score. -/
theorem mapAdzunaItem_ok_inv (it : AdzunaItem) (j : JobPosting)
    (hok : mapAdzunaItem it = Except.ok j) :
    it.id.isSome ∧ it.title.isSome ∧ it.company_display_name.isSome ∧
    it.location_display_name.isSome ∧ it.description.isSome ∧
    it.redirect_url.isSome ∧ it.created.isSome ∧
    j.requirements = j.description ∧ j.match_score = none := by
  rcases it with ⟨aid, atitle, acomp, aloc, adesc, asal, aurl, acreated⟩
  cases aid <;> cases atitle <;> cases acomp <;> cases aloc <;> cases adesc <;>
    cases aurl <;> cases acreated <;>
    simp [mapAdzunaItem, pyGet, Bind.bind, Except.bind, Pure.pure, Except.pure] at hok <;>
    (subst hok; simp)

/-- Helper: an item with a missing mandatory Reed key cannot be mapped. -/
theorem mapReedItem_missing_error (it : ReedItem)
    (hmiss : reedMandatoryMissing it) :
    ∃ e, mapReedItem it = Except.error e := by
  cases hok : mapReedItem it with
  | error e => exact ⟨e, rfl⟩
  | ok j =>
      have h := mapReedItem_ok_inv it j hok
      rcases hmiss with h1 | h1 | h1 | h1 | h1 | h1 | h1 <;> simp [h1] at h

/-- Helper: an item with a missing mandatory Adzuna key cannot be
mapped. -/
theorem mapAdzunaItem_missing_error (it : AdzunaItem)
    (hmiss : adzunaMandatoryMissing it) :
    ∃ e, mapAdzunaItem it = Except.error e := by
  cases hok : mapAdzunaItem it with
  | error e => exact ⟨e, rfl⟩
  | ok j =>
      have h := mapAdzunaItem_ok_inv it j hok
      rcases hmiss with h1 | h1 | h1 | h1 | h1 | h1 | h1 <;> simp [h1] at h

/-- Helper: one raising item aborts the whole Reed batch. -/
theorem mapReedItems_error_of_mem (items : List ReedItem) (it : ReedItem)
    (hmem : it ∈ items) (herr : ∃ e, mapReedItem it = Except.error e) :
    ∃ e, mapReedItems items = Except.error e := by
  induction items with
  | nil => cases hmem
  | cons hd tl ih =>
      cases hok : mapReedItem hd with
      | error e =>
          exact ⟨e, by simp [mapReedItems, hok, Bind.bind, Except.bind]⟩
      | ok j =>
          rcases List.mem_cons.mp hmem with rfl | hmem2
          · rcases herr with ⟨e, he⟩
            rw [hok] at he
            cases he
          · rcases ih hmem2 with ⟨e, he⟩
            refine ⟨e, ?_⟩
            simp [mapReedItems, hok, he, Bind.bind, Except.bind, Pure.pure, Except.pure]

/-- Helper: one raising item aborts the whole Adzuna batch. -/
theorem mapAdzunaItems_error_of_mem (items : List AdzunaItem) (it : AdzunaItem)
    (hmem : it ∈ items) (herr : ∃ e, mapAdzunaItem it = Except.error e) :
    ∃ e, mapAdzunaItems items = Except.error e := by
  induction items with
  | nil => cases hmem
  | cons hd tl ih =>
      cases hok : mapAdzunaItem hd with
      | error e =>
          exact ⟨e, by simp [mapAdzunaItems, hok, Bind.bind, Except.bind]⟩
      | ok j =>
          rcases List.mem_cons.mp hmem with rfl | hmem2
          · rcases herr with ⟨e, he⟩
            rw [hok] at he
            cases he
          · rcases ih hmem2 with ⟨e, he⟩
            refine ⟨e, ?_⟩
            simp [mapAdzunaItems, hok, he, Bind.bind, Except.bind, Pure.pure, Except.pure]

/-- Helper: every posting of a successful Reed batch has requirements
equal to description and no match score. -/
theorem mapReedItems_ok_all (items : List ReedItem) (jobs : List JobPosting)
    (hok : mapReedItems items = Except.ok jobs) :
    ∀ j ∈ jobs, j.requirements = j.description ∧ j.match_score = none := by
  induction items generalizing jobs with
  | nil =>
      simp [mapReedItems] at hok
      subst hok
      simp
  | cons hd tl ih =>
      cases h1 : mapReedItem hd with
      | error e => simp [mapReedItems, h1, Bind.bind, Except.bind] at hok
      | ok j0 =>
          cases h2 : mapReedItems tl with
          | error e =>
              simp [mapReedItems, h1, h2, Bind.bind, Except.bind] at hok
          | ok js0 =>
              have hjobs : j0 :: js0 = jobs := by
                simpa [mapReedItems, h1, h2, Bind.bind, Except.bind, Pure.pure,
                  Except.pure] using hok
              subst hjobs
              intro j hj
              rcases List.mem_cons.mp hj with rfl | hj2
              · have h := mapReedItem_ok_inv hd j h1
                exact ⟨h.2.2.2.2.2.2.2.1, h.2.2.2.2.2.2.2.2⟩
              · exact ih js0 h2 j hj2

/-- Helper: every posting of a successful Adzuna batch has requirements
equal to description and no match score. -/
theorem mapAdzunaItems_ok_all (items : List AdzunaItem) (jobs : List JobPosting)
    (hok : mapAdzunaItems items = Except.ok jobs) :
    ∀ j ∈ jobs, j.requirements = j.description ∧ j.match_score = none := by
  induction items generalizing jobs with
  | nil =>
      simp [mapAdzunaItems] at hok
      subst hok
      simp
  | cons hd tl ih =>
      cases h1 : mapAdzunaItem hd with
      | error e => simp [mapAdzunaItems, h1, Bind.bind, Except.bind] at hok
      | ok j0 =>
          cases h2 : mapAdzunaItems tl with
          | error e =>
              simp [mapAdzunaItems, h1, h2, Bind.bind, Except.bind] at hok
          | ok js0 =>
              have hjobs : j0 :: js0 = jobs := by
                simpa [mapAdzunaItems, h1, h2, Bind.bind, Except.bind, Pure.pure,
                  Except.pure] using hok
              subst hjobs
              intro j hj
              rcases List.mem_cons.mp hj with rfl | hj2
              · have h := mapAdzunaItem_ok_inv hd j h1
                exact ⟨h.2.2.2.2.2.2.2.1, h.2.2.2.2.2.2.2.2⟩
              · exact ih js0 h2 j hj2

/-- Helper: every posting of a successful Reed search has requirements
equal to description and no match score. -/
theorem search_reed_ok_all (k : Option String)
    (resp : Except TransportError (List ReedItem)) (jobs : List JobPosting)
    (hok : search_reed_jobs k resp = Except.ok jobs) :
    ∀ j ∈ jobs, j.requirements = j.description ∧ j.match_score = none := by
  unfold search_reed_jobs at hok
  by_cases hc : credFalsy k = true
  · simp [hc] at hok
    subst hok
    simp
  · simp [hc] at hok
    cases resp with
    | error e =>
        simp at hok
        subst hok
        simp
    | ok items => exact mapReedItems_ok_all items jobs hok

/-- Helper: every posting of a successful Adzuna search has requirements
equal to description and no match score. -/
theorem search_adzuna_ok_all (i k : Option String)
    (resp : Except TransportError (List AdzunaItem)) (jobs : List JobPosting)
    (hok : search_adzuna_jobs i k resp = Except.ok jobs) :
    ∀ j ∈ jobs, j.requirements = j.description ∧ j.match_score = none := by
  unfold search_adzuna_jobs at hok
  by_cases hc : (credFalsy i || credFalsy k) = true
  · simp only [hc, if_true] at hok
    cases hok
    simp
  · simp only [hc, if_false, Bool.not_eq_true] at hok
    rw [if_neg ?_] at hok
    · cases resp with
      | error e =>
          cases hok
          simp
      | ok items => exact mapAdzunaItems_ok_all items jobs hok
    · simp [hc]

/-- C7: an item missing a provider-mandatory key makes the client search
raise: the whole batch aborts with an error that propagates to the
caller, all the way out of search_and_analyze_jobs, while transport
errors are caught and yield an empty list. -/
theorem mandatory_field_aborts_batch (rKey aId aKey : Option String)
    (rItems : List ReedItem) (rIt : ReedItem)
    (aItems : List AdzunaItem) (aIt : AdzunaItem) (te ta : TransportError)
    (adzResp : Except TransportError (List AdzunaItem))
    (qa : Option (String → Except PyError String)) (db : JobSearchDatabase) :
    (credFalsy rKey = false → rIt ∈ rItems → reedMandatoryMissing rIt →
      (∃ e, search_reed_jobs rKey (Except.ok rItems) = Except.error e) ∧
      (∃ e, search_and_analyze_jobs rKey aId aKey (Except.ok rItems) adzResp qa db =
        Except.error e)) ∧
    search_reed_jobs rKey (Except.error te) = Except.ok [] ∧
    (credFalsy aId = false → credFalsy aKey = false → aIt ∈ aItems →
      adzunaMandatoryMissing aIt →
      ∃ e, search_adzuna_jobs aId aKey (Except.ok aItems) = Except.error e) ∧
    search_adzuna_jobs aId aKey (Except.error ta) = Except.ok [] := by
  refine ⟨?_, ?_, ?_, ?_⟩
  · intro hc hmem hmiss
    rcases mapReedItems_error_of_mem rItems rIt hmem
      (mapReedItem_missing_error rIt hmiss) with ⟨e, he⟩
    have hre : search_reed_jobs rKey (Except.ok rItems) = Except.error e := by
      simp [search_reed_jobs, hc, he]
    exact ⟨⟨e, hre⟩,
      ⟨e, by simp [search_and_analyze_jobs, hre, Bind.bind, Except.bind]⟩⟩
  · unfold search_reed_jobs
    split <;> rfl
  · intro hci hck hmem hmiss
    rcases mapAdzunaItems_error_of_mem aItems aIt hmem
      (mapAdzunaItem_missing_error aIt hmiss) with ⟨e, he⟩
    exact ⟨e, by simp [search_adzuna_jobs, hci, hck, he]⟩
  · unfold search_adzuna_jobs
    split <;> rfl

/-- C7 witness: a Reed item missing jobTitle and an Adzuna item missing
id abort their batches and the aggregate call, while transport failures
yield empty lists, at concrete inputs. -/
theorem mandatory_field_aborts_batch_witness :
    ((∃ e, search_reed_jobs (some "rk") (Except.ok [wReedItem, wBadReedItem]) =
        Except.error e) ∧
      (∃ e, search_and_analyze_jobs (some "rk") (some "ai") (some "ak")
        (Except.ok [wReedItem, wBadReedItem]) (Except.ok [wAdzunaItem]) none ⟨[]⟩ =
        Except.error e)) ∧
    search_reed_jobs (some "rk") (Except.error TransportError.networkError) =
      Except.ok [] ∧
    (∃ e, search_adzuna_jobs (some "ai") (some "ak")
      (Except.ok [wBadAdzunaItem]) = Except.error e) ∧
    search_adzuna_jobs (some "ai") (some "ak")
      (Except.error (TransportError.httpStatus 500)) = Except.ok [] := by
  have h := mandatory_field_aborts_batch (some "rk") (some "ai") (some "ak")
    [wReedItem, wBadReedItem] wBadReedItem [wBadAdzunaItem] wBadAdzunaItem
    TransportError.networkError (TransportError.httpStatus 500)
    (Except.ok [wAdzunaItem]) none ⟨[]⟩
  exact ⟨h.1 rfl (by simp) (by right; left; rfl), h.2.1,
    h.2.2.1 rfl rfl (by simp) (by left; rfl), h.2.2.2⟩

/-- C8 counterexample: on an item whose requirements-source key is absent
the client does not construct a posting with requirements fallen back to
description; the same key is a mandatory description lookup, so the
search raises a KeyError and constructs nothing at all. -/
theorem requirements_fallback_counterexample :
    search_reed_jobs (some "key") (Except.ok [reqMissReedItem]) =
      Except.error (PyError.keyError "jobDescription") ∧
    search_adzuna_jobs (some "i") (some "k") (Except.ok [reqMissAdzunaItem]) =
      Except.error (PyError.keyError "description") :=
  ⟨rfl, rfl⟩

/-- C8 amended: when the key used for the requirements field is absent
the client raises and no posting is constructed; every posting a client
does construct has its requirements field equal to (a copy of) its
description field. -/
theorem requirements_fallback_amended (it : ReedItem) (ait : AdzunaItem)
    (j j2 : JobPosting) :
    (it.jobDescription = none → ∃ e, mapReedItem it = Except.error e) ∧
    (mapReedItem it = Except.ok j → j.requirements = j.description) ∧
    (ait.description = none → ∃ e, mapAdzunaItem ait = Except.error e) ∧
    (mapAdzunaItem ait = Except.ok j2 → j2.requirements = j2.description) := by
  refine ⟨?_, ?_, ?_, ?_⟩
  · intro hmiss
    exact mapReedItem_missing_error it (by
      right; right; right; right; left; exact hmiss)
  · intro hok
    exact (mapReedItem_ok_inv it j hok).2.2.2.2.2.2.2.1
  · intro hmiss
    exact mapAdzunaItem_missing_error ait (by
      right; right; right; right; left; exact hmiss)
  · intro hok
    exact (mapAdzunaItem_ok_inv ait j2 hok).2.2.2.2.2.2.2.1

/-- C8 amended witness: the raising branch at the concrete
requirements-missing items, and the copy property at the posting built
from the complete Reed item, instantiated concretely. -/
theorem requirements_fallback_amended_witness :
    (∃ e, mapReedItem reqMissReedItem = Except.error e) ∧
    (∃ e, mapAdzunaItem reqMissAdzunaItem = Except.error e) ∧
    wReedPosting.requirements = wReedPosting.description :=
  ⟨(requirements_fallback_amended reqMissReedItem reqMissAdzunaItem
      (mkJob 0) (mkJob 0)).1 rfl,
   (requirements_fallback_amended reqMissReedItem reqMissAdzunaItem
      (mkJob 0) (mkJob 0)).2.2.1 rfl,
   (requirements_fallback_amended wReedItem wAdzunaItem
      wReedPosting (mkJob 0)).2.1 rfl⟩

/-- C9: every posting successfully returned by either client search has
its requirements field exactly equal to its description field, since
both are read from the same provider key. -/
theorem requirements_eq_description (rk : Option String)
    (rresp : Except TransportError (List ReedItem)) (aid ak : Option String)
    (aresp : Except TransportError (List AdzunaItem))
    (rjobs ajobs : List JobPosting) :
    (search_reed_jobs rk rresp = Except.ok rjobs →
      ∀ j ∈ rjobs, j.requirements = j.description) ∧
    (search_adzuna_jobs aid ak aresp = Except.ok ajobs →
      ∀ j ∈ ajobs, j.requirements = j.description) := by
  constructor
  · intro hok j hj
    exact (search_reed_ok_all rk rresp rjobs hok j hj).1
  · intro hok j hj
    exact (search_adzuna_ok_all aid ak aresp ajobs hok j hj).1

/-- Helper: takeWhile walks through a leading block whose elements all
satisfy the predicate. -/
theorem takeWhile_append_all (p : Char → Bool) (l₁ l₂ : List Char)
    (h : ∀ c ∈ l₁, p c = true) :
    (l₁ ++ l₂).takeWhile p = l₁ ++ l₂.takeWhile p := by
  induction l₁ with
  | nil => simp
  | cons c cs ih =>
      have hc := h c (List.mem_cons_self c cs)
      simp only [List.cons_append, List.takeWhile_cons, hc, if_true]
      rw [ih fun d hd => h d (List.mem_cons_of_mem c hd)]

/-- Helper: dropWhile skips a leading block whose elements all satisfy
the predicate. -/
theorem dropWhile_append_all (p : Char → Bool) (l₁ l₂ : List Char)
    (h : ∀ c ∈ l₁, p c = true) :
    (l₁ ++ l₂).dropWhile p = l₂.dropWhile p := by
  induction l₁ with
  | nil => simp
  | cons c cs ih =>
      have hc := h c (List.mem_cons_self c cs)
      simp only [List.cons_append, List.dropWhile_cons, hc, if_true]
      exact ih fun d hd => h d (List.mem_cons_of_mem c hd)

/-- Helper: an empty-check is false on a provably nonempty list. -/
theorem isEmpty_false_of_ne (l : List Char) (h : l ≠ []) : l.isEmpty = false := by
  cases l with
  | nil => cases h rfl
  | cons a as => rfl

/-- Helper: a list whose empty-check is false is nonempty. -/
theorem ne_nil_of_isEmpty_false (l : List Char) (h : l.isEmpty = false) :
    l ≠ [] := by
  cases l with
  | nil => cases h
  | cons a as => exact List.cons_ne_nil a as

/-- Helper: the dot is not a digit. -/
theorem dot_not_digit : Char.isDigit '.' = false := rfl

/-- Helper: a nonempty all-digit string is a full match of the numeric
pattern. -/
theorem numToken_all_digits (d : List Char) (hne : d ≠ [])
    (hall : ∀ c ∈ d, c.isDigit = true) : numToken d = true := by
  have htw : d.takeWhile Char.isDigit = d := by
    have h2 := takeWhile_append_all Char.isDigit d [] hall
    simpa using h2
  have hdw : d.dropWhile Char.isDigit = [] := by
    have h2 := dropWhile_append_all Char.isDigit d [] hall
    simpa using h2
  simp only [numToken, htw, hdw]
  simp [isEmpty_false_of_ne d hne]

/-- Helper: a nonempty digit run, a dot and a nonempty digit run form a
full match of the numeric pattern. -/
theorem numToken_digits_dot (dl el : List Char) (hdne : dl ≠ [])
    (hdall : ∀ c ∈ dl, c.isDigit = true) (hene : el ≠ [])
    (heall : ∀ c ∈ el, c.isDigit = true) :
    numToken (dl ++ '.' :: el) = true := by
  have htw : (dl ++ '.' :: el).takeWhile Char.isDigit = dl := by
    rw [takeWhile_append_all Char.isDigit dl _ hdall]
    simp [List.takeWhile_cons, dot_not_digit]
  have hdw : (dl ++ '.' :: el).dropWhile Char.isDigit = '.' :: el := by
    rw [dropWhile_append_all Char.isDigit dl _ hdall]
    simp [List.dropWhile_cons, dot_not_digit]
  simp only [numToken, htw, hdw]
  simp [isEmpty_false_of_ne dl hdne, isEmpty_false_of_ne el hene,
    List.all_eq_true]
  exact heall

/-- Helper: the greedy match at a digit-headed position is a full match
of the numeric pattern. -/
theorem takeNum_token (c : Char) (cs : List Char) (hc : c.isDigit = true) :
    numToken (takeNum (c :: cs)) = true := by
  have hDall : ∀ x ∈ (c :: cs).takeWhile Char.isDigit, x.isDigit = true :=
    fun x hx => List.mem_takeWhile_imp hx
  have hDne : (c :: cs).takeWhile Char.isDigit ≠ [] := by
    simp [List.takeWhile_cons, hc]
  simp only [takeNum]
  split
  · rename_i rest hdw
    split
    · exact numToken_all_digits _ hDne hDall
    · rename_i hene
      have hene2 : rest.takeWhile Char.isDigit ≠ [] := by
        intro hnil
        simp [hnil] at hene
      exact numToken_digits_dot _ _ hDne hDall hene2
        (fun x hx => List.mem_takeWhile_imp hx)
  · exact numToken_all_digits _ hDne hDall

/-- Helper: the greedy match is an initial segment of the scanned
suffix. -/
theorem takeNum_pref (l : List Char) : ∃ u, l = takeNum l ++ u := by
  simp only [takeNum]
  split
  · rename_i rest hdw
    split
    · refine ⟨'.' :: rest, ?_⟩
      rw [← hdw, List.takeWhile_append_dropWhile]
    · refine ⟨rest.dropWhile Char.isDigit, ?_⟩
      rw [List.append_assoc, List.cons_append, List.takeWhile_append_dropWhile,
        ← hdw, List.takeWhile_append_dropWhile]
  · exact ⟨l.dropWhile Char.isDigit,
      (List.takeWhile_append_dropWhile Char.isDigit l).symm⟩

/-- Helper: the greedy match is at least as long as the leading digit
run. -/
theorem takeNum_len_ge (l : List Char) :
    (l.takeWhile Char.isDigit).length ≤ (takeNum l).length := by
  simp only [takeNum]
  split
  · split
    · exact le_refl _
    · simp
  · exact le_refl _

/-- Helper: a full pattern match decomposes into a nonempty digit run
optionally followed by a dot and a nonempty digit run. -/
theorem numToken_decomp (t : List Char) (h : numToken t = true) :
    t.takeWhile Char.isDigit ≠ [] ∧
    (t = t.takeWhile Char.isDigit ∨
      ∃ e, e ≠ [] ∧ (∀ c ∈ e, c.isDigit = true) ∧
        t = t.takeWhile Char.isDigit ++ '.' :: e) := by
  simp only [numToken] at h
  split at h
  · rename_i hdw
    rw [Bool.not_eq_true'] at h
    have h3 := List.takeWhile_append_dropWhile Char.isDigit t
    rw [hdw, List.append_nil] at h3
    exact ⟨ne_nil_of_isEmpty_false _ h, Or.inl h3.symm⟩
  · rename_i e hdw
    rw [Bool.and_eq_true, Bool.and_eq_true, Bool.not_eq_true',
      Bool.not_eq_true'] at h
    obtain ⟨⟨hD, hene⟩, hall⟩ := h
    have h3 := List.takeWhile_append_dropWhile Char.isDigit t
    rw [hdw] at h3
    exact ⟨ne_nil_of_isEmpty_false _ hD,
      Or.inr ⟨e, ne_nil_of_isEmpty_false _ hene, List.all_eq_true.mp hall, h3.symm⟩⟩
  · cases h

/-- Helper: greedy is longest here: any full pattern match that is an
initial segment of the scanned suffix is no longer than the greedy
match. -/
theorem takeNum_longest (l t2 u2 : List Char) (hsplit : l = t2 ++ u2)
    (ht2 : numToken t2 = true) : t2.length ≤ (takeNum l).length := by
  obtain ⟨hD2ne, hcase⟩ := numToken_decomp t2 ht2
  have hD2all : ∀ c ∈ t2.takeWhile Char.isDigit, c.isDigit = true :=
    fun c hc => List.mem_takeWhile_imp hc
  rcases hcase with ht | ⟨e2, he2ne, he2all, ht⟩
  · have hall : ∀ c ∈ t2, c.isDigit = true := fun c hc => hD2all c (ht ▸ hc)
    have h1 : t2.length ≤ (l.takeWhile Char.isDigit).length := by
      rw [hsplit, takeWhile_append_all Char.isDigit t2 u2 hall]
      simp
    exact le_trans h1 (takeNum_len_ge l)
  · have hl : l = t2.takeWhile Char.isDigit ++ '.' :: (e2 ++ u2) := by
      rw [hsplit]
      conv_lhs => rw [ht]
      simp
    have htw : l.takeWhile Char.isDigit = t2.takeWhile Char.isDigit := by
      rw [hl, takeWhile_append_all Char.isDigit _ _ hD2all]
      simp [List.takeWhile_cons, dot_not_digit]
    have hdw : l.dropWhile Char.isDigit = '.' :: (e2 ++ u2) := by
      rw [hl, dropWhile_append_all Char.isDigit _ _ hD2all]
      simp [List.dropWhile_cons, dot_not_digit]
    have he : (e2 ++ u2).takeWhile Char.isDigit = e2 ++ u2.takeWhile Char.isDigit :=
      takeWhile_append_all Char.isDigit e2 u2 he2all
    have hene : (e2 ++ u2.takeWhile Char.isDigit).isEmpty = false :=
      isEmpty_false_of_ne _ (by simp [he2ne])
    simp only [takeNum, hdw, he, hene, htw]
    conv_lhs => rw [ht]
    simp [List.length_append]

/-- Helper: a text without digits has no match. -/
theorem findNum_eq_none (l : List Char) (h : ∀ c ∈ l, c.isDigit = false) :
    findNum l = none := by
  induction l with
  | nil => rfl
  | cons c cs ih =>
      have hc := h c (List.mem_cons_self c cs)
      simp only [findNum, hc, Bool.false_eq_true, if_false]
      exact ih fun d hd => h d (List.mem_cons_of_mem c hd)

/-- Helper: when the text holds a digit, the scan stops at the first
digit and returns the greedy match there. -/
theorem findNum_some_structure (l : List Char) (c0 : Char) (hmem : c0 ∈ l)
    (hc0 : c0.isDigit = true) :
    ∃ pre rest, l = pre ++ rest ∧ (∀ c ∈ pre, c.isDigit = false) ∧
      (∃ d ds, rest = d :: ds ∧ d.isDigit = true) ∧
      findNum l = some (takeNum rest) := by
  induction l with
  | nil => cases hmem
  | cons c cs ih =>
      by_cases hc : c.isDigit = true
      · exact ⟨[], c :: cs, by simp, by simp, ⟨c, cs, rfl, hc⟩, by
          simp [findNum, hc]⟩
      · have hc2 : c.isDigit = false := by simpa using hc
        have hmem2 : c0 ∈ cs := by
          rcases List.mem_cons.mp hmem with rfl | h2
          · rw [hc0] at hc2
            cases hc2
          · exact h2
        obtain ⟨pre, rest, h1, h2, h3, h4⟩ := ih hmem2
        refine ⟨c :: pre, rest, by simp [h1], ?_, h3, by
          simp [findNum, hc2, h4]⟩
        intro x hx
        rcases List.mem_cons.mp hx with rfl | hx2
        · exact hc2
        · exact h2 x hx2

/-- Helper: the extracted score is the parse of the leftmost greedy
numeric match, or 0 when the text holds no digit. -/
theorem extract_score_characterization (s : String) :
    (∃ t, FirstNumericMatch s.data t ∧ extract_score s = parseNum t) ∨
    ((∀ c ∈ s.data, c.isDigit = false) ∧ extract_score s = 0) := by
  by_cases hd : ∀ c ∈ s.data, c.isDigit = false
  · right
    exact ⟨hd, by simp [extract_score, findNum_eq_none _ hd]⟩
  · left
    push_neg at hd
    obtain ⟨c0, hc0mem, hc0⟩ := hd
    have hc0d : c0.isDigit = true := by simpa using hc0
    obtain ⟨pre, rest, h1, h2, ⟨d, ds, hrest, hddig⟩, h4⟩ :=
      findNum_some_structure s.data c0 hc0mem hc0d
    refine ⟨takeNum rest, ⟨pre, rest, h1, h2, takeNum_pref rest, ?_, ?_⟩, by
      simp [extract_score, h4]⟩
    · rw [hrest]
      exact takeNum_token d ds hddig
    · intro t2 v2 hs ht2
      exact takeNum_longest rest t2 v2 hs ht2

/-- C5: a scorer call returns the float value of the first substring of
the answer text matching the numeric pattern (leftmost-greedy), 0 when
the text has no digits, and 0 whenever the question-answering call
raises. -/
theorem scorer_first_number (qaF : String → Except PyError String)
    (job : JobPosting) (s : String) :
    ((∃ e, qaF (buildQuery job) = Except.error e) →
      analyze_job_match (some qaF) job = 0) ∧
    (qaF (buildQuery job) = Except.ok s →
      analyze_job_match (some qaF) job = extract_score s) ∧
    ((∃ t, FirstNumericMatch s.data t ∧ extract_score s = parseNum t) ∨
      ((∀ c ∈ s.data, c.isDigit = false) ∧ extract_score s = 0)) := by
  refine ⟨?_, ?_, extract_score_characterization s⟩
  · rintro ⟨e, he⟩
    simp [analyze_job_match, he]
  · intro hok
    simp [analyze_job_match, hok]

/-- C5 witness: a concrete oracle whose answer embeds 85.5 as its first
number, whose extraction evaluates to 171/2, and a concrete raising
oracle mapped to 0. -/
theorem scorer_first_number_witness :
    analyze_job_match (some (fun _ => Except.ok "Match score: 85.5 out of 100"))
      (mkJob 1) = extract_score "Match score: 85.5 out of 100" ∧
    extract_score "Match score: 85.5 out of 100" = 171 / 2 ∧
    analyze_job_match (some (fun _ => Except.error (PyError.keyError "boom")))
      (mkJob 1) = 0 :=
  ⟨(scorer_first_number (fun _ => Except.ok "Match score: 85.5 out of 100")
      (mkJob 1) "Match score: 85.5 out of 100").2.1 rfl,
   by
    have h : findNum "Match score: 85.5 out of 100".data =
        some ['8', '5', '.', '5'] := by decide
    have h2 : (['8', '5', '.', '5'].takeWhile fun c => c ≠ '.') = ['8', '5'] := by
      decide
    have h3 : (['8', '5', '.', '5'].dropWhile fun c => c ≠ '.') = ['.', '5'] := by
      decide
    have h4 : digitsVal ['8', '5'] = 85 := by decide
    have h5 : digitsVal ['5'] = 5 := by decide
    simp only [extract_score, h, parseNum, h2, h3, h4, h5]
    norm_num,
   (scorer_first_number (fun _ => Except.error (PyError.keyError "boom"))
      (mkJob 1) "x").1 ⟨PyError.keyError "boom", rfl⟩⟩

/-- Helper: inserting an element permutes with consing it. -/
theorem insertDesc_perm (x : JobPosting) (l : List JobPosting) :
    List.Perm (insertDesc x l) (x :: l) := by
  induction l with
  | nil => exact List.Perm.refl _
  | cons y ys ih =>
      rw [insertDesc]
      split
      · exact List.Perm.refl _
      · exact (List.Perm.cons y ih).trans (List.Perm.swap x y ys)

/-- Helper: the stable descending sort is a permutation of its input. -/
theorem sortJobsDesc_perm (l : List JobPosting) :
    List.Perm (sortJobsDesc l) l := by
  induction l with
  | nil => exact List.Perm.refl _
  | cons x xs ih =>
      exact (insertDesc_perm x (sortJobsDesc xs)).trans (List.Perm.cons x ih)

/-- Helper: inserting into a descending-sorted list keeps it sorted. -/
theorem insertDesc_pairwise (x : JobPosting) (l : List JobPosting)
    (hl : l.Pairwise (fun a b => effScore b ≤ effScore a)) :
    (insertDesc x l).Pairwise (fun a b => effScore b ≤ effScore a) := by
  induction l with
  | nil => simp [insertDesc]
  | cons y ys ih =>
      rw [List.pairwise_cons] at hl
      obtain ⟨hy, hys⟩ := hl
      rw [insertDesc]
      split
      · rename_i hyx
        rw [List.pairwise_cons]
        refine ⟨fun b hb => ?_, List.pairwise_cons.mpr ⟨hy, hys⟩⟩
        rcases List.mem_cons.mp hb with rfl | hb2
        · exact hyx
        · exact le_trans (hy b hb2) hyx
      · rename_i hyx
        rw [List.pairwise_cons]
        refine ⟨fun b hb => ?_, ih hys⟩
        rcases List.mem_cons.mp ((insertDesc_perm x ys).mem_iff.mp hb) with rfl | hb2
        · exact le_of_lt (lt_of_not_le hyx)
        · exact hy b hb2

/-- Helper: the sort output is sorted by effective score descending. -/
theorem sortJobsDesc_pairwise (l : List JobPosting) :
    (sortJobsDesc l).Pairwise (fun a b => effScore b ≤ effScore a) := by
  induction l with
  | nil => simp [sortJobsDesc]
  | cons x xs ih => exact insertDesc_pairwise x (sortJobsDesc xs) ih

/-- Helper: inserting x puts it in front of every element of equal
effective score, because insertion only skips strictly greater scores. -/
theorem insertDesc_filter (x : JobPosting) (l : List JobPosting) (q : ℚ) :
    (insertDesc x l).filter (fun j => effScore j = q) =
      if effScore x = q then x :: l.filter (fun j => effScore j = q)
      else l.filter (fun j => effScore j = q) := by
  induction l with
  | nil =>
      by_cases hx : effScore x = q <;> simp [insertDesc, hx]
  | cons y ys ih =>
      rw [insertDesc]
      split
      · rename_i hyx
        by_cases hx : effScore x = q <;> simp [List.filter_cons, hx]
      · rename_i hyx
        by_cases hy : effScore y = q
        · have hx : ¬ effScore x = q := by
            intro hxq
            exact hyx (le_of_eq (by rw [hy, hxq]))
          simp [List.filter_cons, hy, hx, ih]
        · by_cases hx : effScore x = q <;> simp [List.filter_cons, hy, hx, ih]

/-- Helper: stability of the sort, expressed per effective-score class:
the elements of any one effective score appear in the output in exactly
their input order. -/
theorem sortJobsDesc_filter (l : List JobPosting) (q : ℚ) :
    (sortJobsDesc l).filter (fun j => effScore j = q) =
      l.filter (fun j => effScore j = q) := by
  induction l with
  | nil => rfl
  | cons x xs ih =>
      rw [sortJobsDesc, insertDesc_filter]
      by_cases hx : effScore x = q <;> simp [List.filter_cons, hx, ih]

/-- C1: the list returned by search_and_analyze_jobs is a stable sort by
effective match score descending of the concatenation of the two source
results, Reed first: it is a permutation of the scored concatenation,
pairwise sorted with absent scores counted as 0, and every
equal-effective-score class keeps its concatenation order. -/
theorem search_and_analyze_stable_sort (reedKey adzunaId adzunaKey : Option String)
    (reedResp : Except TransportError (List ReedItem))
    (adzunaResp : Except TransportError (List AdzunaItem))
    (qa : Option (String → Except PyError String)) (db : JobSearchDatabase)
    (reed_jobs adzuna_jobs out : List JobPosting) (db2 : JobSearchDatabase)
    (hr : search_reed_jobs reedKey reedResp = Except.ok reed_jobs)
    (ha : search_adzuna_jobs adzunaId adzunaKey adzunaResp = Except.ok adzuna_jobs)
    (hout : search_and_analyze_jobs reedKey adzunaId adzunaKey reedResp adzunaResp qa db =
      Except.ok (out, db2)) :
    List.Perm out ((reed_jobs ++ adzuna_jobs).map (processJob qa)) ∧
    out.Pairwise (fun a b => effScore b ≤ effScore a) ∧
    ∀ q : ℚ, out.filter (fun j => effScore j = q) =
      ((reed_jobs ++ adzuna_jobs).map (processJob qa)).filter (fun j => effScore j = q) := by
  have hout2 : out = sortJobsDesc ((reed_jobs ++ adzuna_jobs).map (processJob qa)) := by
    simp [search_and_analyze_jobs, hr, ha, Bind.bind, Except.bind, Pure.pure,
      Except.pure, rankAndPersist] at hout
    rw [List.map_append]
    exact hout.1.symm
  subst hout2
  exact ⟨sortJobsDesc_perm _, sortJobsDesc_pairwise _, fun q => sortJobsDesc_filter _ q⟩

/-- C1 witness: the stable-sort shape at a concrete run in which Reed
has no key and both Adzuna postings tie at score 85. -/
theorem search_and_analyze_stable_sort_witness :
    List.Perm wRanked.1 (([] ++ wAdzunaJobs).map (processJob wQA)) ∧
    wRanked.1.Pairwise (fun a b => effScore b ≤ effScore a) ∧
    wRanked.1.filter (fun j => effScore j = 85) =
      (([] ++ wAdzunaJobs).map (processJob wQA)).filter (fun j => effScore j = 85) := by
  have h := search_and_analyze_stable_sort none (some "ai") (some "ak")
    (Except.ok [wReedItem]) (Except.ok [wAdzunaItem, wAdzunaItem2]) wQA ⟨[]⟩
    [] wAdzunaJobs wRanked.1 wRanked.2 rfl rfl rfl
  exact ⟨h.1, h.2.1, h.2.2 85⟩

/-- C3: a client whose credentials are absent or whose HTTP request
fails at the transport level returns the empty list without raising, and
the aggregate result is exactly what the other client alone
contributes. -/
theorem source_failure_isolated (reedKey adzunaId adzunaKey : Option String)
    (reedResp : Except TransportError (List ReedItem))
    (adzunaResp : Except TransportError (List AdzunaItem))
    (qa : Option (String → Except PyError String)) (db : JobSearchDatabase) :
    ((credFalsy reedKey = true ∨ ∃ te, reedResp = Except.error te) →
      search_reed_jobs reedKey reedResp = Except.ok [] ∧
      search_and_analyze_jobs reedKey adzunaId adzunaKey reedResp adzunaResp qa db =
        Except.map (fun adz => rankAndPersist qa db adz)
          (search_adzuna_jobs adzunaId adzunaKey adzunaResp)) ∧
    (((credFalsy adzunaId || credFalsy adzunaKey) = true ∨
        ∃ te, adzunaResp = Except.error te) →
      search_adzuna_jobs adzunaId adzunaKey adzunaResp = Except.ok [] ∧
      search_and_analyze_jobs reedKey adzunaId adzunaKey reedResp adzunaResp qa db =
        Except.map (fun reed => rankAndPersist qa db reed)
          (search_reed_jobs reedKey reedResp)) := by
  constructor
  · intro hfail
    have hre : search_reed_jobs reedKey reedResp = Except.ok [] := by
      rcases hfail with hc | ⟨te, hte⟩
      · simp [search_reed_jobs, hc]
      · subst hte
        unfold search_reed_jobs
        split <;> rfl
    refine ⟨hre, ?_⟩
    cases hadz : search_adzuna_jobs adzunaId adzunaKey adzunaResp with
    | error e =>
        simp [search_and_analyze_jobs, hre, hadz, Bind.bind, Except.bind, Except.map]
    | ok adz =>
        simp [search_and_analyze_jobs, hre, hadz, Bind.bind, Except.bind,
          Pure.pure, Except.pure, Except.map]
  · intro hfail
    have had : search_adzuna_jobs adzunaId adzunaKey adzunaResp = Except.ok [] := by
      rcases hfail with hc | ⟨te, hte⟩
      · simp [search_adzuna_jobs, hc]
      · subst hte
        unfold search_adzuna_jobs
        split <;> rfl
    refine ⟨had, ?_⟩
    cases hre : search_reed_jobs reedKey reedResp with
    | error e =>
        simp [search_and_analyze_jobs, hre, had, Bind.bind, Except.bind, Except.map]
    | ok reed =>
        simp [search_and_analyze_jobs, hre, had, Bind.bind, Except.bind,
          Pure.pure, Except.pure, Except.map]

/-- C3 witness: a missing Reed key and, separately, an Adzuna transport
failure, each leaving the other client's contribution intact, at
concrete inputs. -/
theorem source_failure_isolated_witness :
    (search_reed_jobs none (Except.ok [wReedItem]) = Except.ok [] ∧
      search_and_analyze_jobs none (some "ai") (some "ak") (Except.ok [wReedItem])
        (Except.ok [wAdzunaItem, wAdzunaItem2]) none ⟨[]⟩ =
        Except.map (fun adz => rankAndPersist none ⟨[]⟩ adz)
          (search_adzuna_jobs (some "ai") (some "ak")
            (Except.ok [wAdzunaItem, wAdzunaItem2]))) ∧
    (search_adzuna_jobs (some "ai") (some "ak")
        (Except.error TransportError.networkError) = Except.ok [] ∧
      search_and_analyze_jobs (some "rk") (some "ai") (some "ak")
        (Except.ok [wReedItem]) (Except.error TransportError.networkError) none ⟨[]⟩ =
        Except.map (fun reed => rankAndPersist none ⟨[]⟩ reed)
          (search_reed_jobs (some "rk") (Except.ok [wReedItem]))) :=
  ⟨(source_failure_isolated none (some "ai") (some "ak") (Except.ok [wReedItem])
      (Except.ok [wAdzunaItem, wAdzunaItem2]) none ⟨[]⟩).1 (Or.inl rfl),
   (source_failure_isolated (some "rk") (some "ai") (some "ak") (Except.ok [wReedItem])
      (Except.error TransportError.networkError) none ⟨[]⟩).2
      (Or.inr ⟨TransportError.networkError, rfl⟩)⟩

/-- C4: with no CV index loaded (qa_chain unset) every posting returned
by search_and_analyze_jobs has an absent match score, and a direct call
to the scorer returns exactly 0. -/
theorem no_cv_scores_absent (reedKey adzunaId adzunaKey : Option String)
    (reedResp : Except TransportError (List ReedItem))
    (adzunaResp : Except TransportError (List AdzunaItem))
    (db : JobSearchDatabase) (out : List JobPosting) (db2 : JobSearchDatabase)
    (job : JobPosting)
    (h : search_and_analyze_jobs reedKey adzunaId adzunaKey reedResp adzunaResp none db =
      Except.ok (out, db2)) :
    (∀ j ∈ out, j.match_score = none) ∧ analyze_job_match none job = 0 := by
  refine ⟨?_, rfl⟩
  cases hre : search_reed_jobs reedKey reedResp with
  | error e => simp [search_and_analyze_jobs, hre, Bind.bind, Except.bind] at h
  | ok reed =>
      cases had : search_adzuna_jobs adzunaId adzunaKey adzunaResp with
      | error e =>
          simp [search_and_analyze_jobs, hre, had, Bind.bind, Except.bind] at h
      | ok adz =>
          have hout : out = sortJobsDesc ((reed ++ adz).map (processJob none)) := by
            simp [search_and_analyze_jobs, hre, had, Bind.bind, Except.bind,
              Pure.pure, Except.pure, rankAndPersist] at h
            rw [List.map_append]
            exact h.1.symm
          intro j hj
          rw [hout] at hj
          have hj2 : j ∈ (reed ++ adz).map (processJob none) :=
            (sortJobsDesc_perm _).subset hj
          have hj3 : j ∈ reed ++ adz := by
            simpa [processJob] using hj2
          rcases List.mem_append.mp hj3 with hj4 | hj4
          · exact (search_reed_ok_all _ _ _ hre j hj4).2
          · exact (search_adzuna_ok_all _ _ _ _ had j hj4).2

/-- C4 witness: a no-index aggregate run over both concrete item lists,
with a concrete posting for the direct scorer call. -/
theorem no_cv_scores_absent_witness :
    (∀ j ∈ (rankAndPersist none ⟨[]⟩ (wReedJobs ++ wAdzunaJobs)).1,
      j.match_score = none) ∧ analyze_job_match none (mkJob 3) = 0 :=
  no_cv_scores_absent (some "rk") (some "ai") (some "ak")
    (Except.ok [wReedItem]) (Except.ok [wAdzunaItem, wAdzunaItem2]) ⟨[]⟩
    (rankAndPersist none ⟨[]⟩ (wReedJobs ++ wAdzunaJobs)).1
    (rankAndPersist none ⟨[]⟩ (wReedJobs ++ wAdzunaJobs)).2 (mkJob 3) rfl

/-- C9 witness: the invariant instantiated on concrete successful
searches of both clients. -/
theorem requirements_eq_description_witness :
    (∀ j ∈ wReedJobs, j.requirements = j.description) ∧
    (∀ j ∈ wAdzunaJobs, j.requirements = j.description) :=
  ⟨(requirements_eq_description (some "rk") (Except.ok [wReedItem])
      (some "ai") (some "ak") (Except.ok [wAdzunaItem, wAdzunaItem2])
      wReedJobs wAdzunaJobs).1 rfl,
   (requirements_eq_description (some "rk") (Except.ok [wReedItem])
      (some "ai") (some "ak") (Except.ok [wAdzunaItem, wAdzunaItem2])
      wReedJobs wAdzunaJobs).2 rfl⟩
